import Mathlib

/-!
Shallow embedding of the EVRP_TW repository (Electric Vehicle Routing
Problem with Time Windows) and proofs about it.

Sources embedded:
* `data_parser.py` — the `Node` record and the tail of `parse_file`
  (node categorisation by identifier prefix and the depot-coincidence
  cleanup step); the two regular expressions of the line loop are
  abstracted by the inductive `ParsedLine`, which records exactly the
  information the loop body reads from a matched line.
* `EVRP_Graph.py` — `Graph_EVRP_TW.__init__` and
  `generate_distance_matrix`.
* `EVRP_Solver.py` — the index sequences built in `EVPR_TW_Solver.__init__`
  and the constraint families generated by `_set_constraints`.
* `utility.py` — `euclidean_distance` and `find_and_print_routes`.

Numeric conventions: the Python floats carried by nodes and parameters are
modelled by rationals (every parsed literal is rational, and the only
comparisons performed on them are exact equalities); distances, which pass
through a square root, live in `ℝ`.  The arc label string `"x_i_j"` is
modelled by the pair `(i, j)`: the code only ever formats such labels with
`f"x_{i}_{j}"` and parses them back with `split('_')`, so the pair carries
the same information.
-/

/-- Node type character from the dataset: `d` depot, `f` recharging
station, `c` customer (`data_parser.py`, class `Node`). -/
inductive NType where
  | d : NType
  | f : NType
  | c : NType
deriving DecidableEq, Repr

/-- `data_parser.py` class `Node`: identifier, type, 2-D position, demand,
time window `[start, end]` and service time. -/
structure Node where
  StringId : String
  type : NType
  Position : ℚ × ℚ
  Demand : ℚ
  Window : ℚ × ℚ
  ServiceTime : ℚ
deriving DecidableEq, Repr

/-- Placeholder node used to totalise list indexing (`Nodes[i]`); every
indexed access in the embedded code is in range, so the placeholder value
is never observed. -/
def dummyNode : Node :=
  ⟨"", NType.d, (0, 0), 0, (0, 1e5), 0⟩

/-- The vehicle parameter record: `Q` tank capacity, `C` load capacity,
`r` consumption rate, `g` inverse refueling rate, `v` average velocity
(`data_parser.py` comments, read by `Graph_EVRP_TW.__init__`). -/
structure VehicleParams where
  Q : ℚ
  C : ℚ
  r : ℚ
  g : ℚ
  v : ℚ
deriving DecidableEq, Repr

/-- `utility.py`, `euclidean_distance`: the Euclidean distance between two
positions, `sqrt ((x2-x1)^2 + (y2-y1)^2)`. -/
noncomputable def euclidean_distance (pos1 pos2 : ℚ × ℚ) : ℝ :=
  Real.sqrt (((pos2.1 - pos1.1) ^ 2 + (pos2.2 - pos1.2) ^ 2 : ℚ) : ℝ)

/-- Python `range(a, b)` as a list of naturals. -/
def pyRange (a b : ℕ) : List ℕ :=
  List.range' a (b - a)

/-- Python list repetition `l * n`: `n` concatenated copies of `l`. -/
def listMul (l : List α) (n : ℕ) : List α :=
  (List.replicate n l).flatten

/-- `EVRP_Graph.py`, `Graph_EVRP_TW.generate_distance_matrix`: the upper
triangle (rows `i`, columns `j` with `i ≤ j < n`) is filled with Euclidean
distances, every other entry of the `n × n` array stays `0`; out-of-range
indices of the model are totalised to `0`. -/
noncomputable def upper_triangle (nodes : List Node) (i j : ℕ) : ℝ :=
  if i ≤ j ∧ j < nodes.length then
    euclidean_distance ((nodes.getD i dummyNode).Position)
      ((nodes.getD j dummyNode).Position)
  else 0

/-- `EVRP_Graph.py`, `Graph_EVRP_TW.generate_distance_matrix`: the filled
upper triangle plus its transpose (`distance_matrix += distance_matrix.transpose()`,
and multiplication by `1.0` is the identity). -/
noncomputable def generate_distance_matrix (nodes : List Node) (i j : ℕ) : ℝ :=
  upper_triangle nodes i j + upper_triangle nodes j i

/-- The attributes computed by `Graph_EVRP_TW.__init__` (`EVRP_Graph.py`). -/
structure Graph_EVRP_TW where
  Depot_nodes : List Node
  Customer_nodes : List Node
  RS_nodes : List Node
  parameters : VehicleParams
  Nodes : List Node
  Depot_Idx : List ℕ
  Customer_Idx : List ℕ
  RS_Idx : List ℕ
  distance_matrix : ℕ → ℕ → ℝ
  CustomerTW : List (ℚ × ℚ)
  CustomerServiceTime : List ℚ
  CustomerDemand : List ℚ
  Q : ℚ
  C : ℚ
  r : ℚ
  g : ℚ
  v : ℚ
  travel_time_matrix : ℕ → ℕ → ℝ

/-- `EVRP_Graph.py`, `Graph_EVRP_TW.__init__`: node sequence
`Depot + Customer + RS * RS_dummy_count + Depot`, index partitions,
distance matrix, per-node data arrays, vehicle parameters and the travel
time matrix `distance / v`. -/
noncomputable def Graph_EVRP_TW.init (Depot_nodes Customer_nodes RS_nodes : List Node)
    (parameters : VehicleParams) (RS_dummy_count : ℕ) : Graph_EVRP_TW :=
  let Nodes := Depot_nodes ++ Customer_nodes ++ listMul RS_nodes RS_dummy_count ++ Depot_nodes
  { Depot_nodes := Depot_nodes
    Customer_nodes := Customer_nodes
    RS_nodes := RS_nodes
    parameters := parameters
    Nodes := Nodes
    Depot_Idx := [0, Nodes.length - 1]
    Customer_Idx := pyRange 1 (1 + Customer_nodes.length)
    RS_Idx := pyRange (1 + Customer_nodes.length) (Nodes.length - 1)
    distance_matrix := generate_distance_matrix Nodes
    CustomerTW := Nodes.map (·.Window)
    CustomerServiceTime := Nodes.map (·.ServiceTime)
    CustomerDemand := Nodes.map (·.Demand)
    Q := parameters.Q
    C := parameters.C
    r := parameters.r
    g := parameters.g
    v := parameters.v
    travel_time_matrix := fun i j => generate_distance_matrix Nodes i j / (parameters.v : ℝ) }

/-- A CPLEX decision-variable name as generated by
`EVPR_TW_Solver._set_decision_variable` (`EVRP_Solver.py`): the binary
arc variable `x_{i}_{j}`, and the continuous `tao_{i}`, `u_{i}`, `y_{i}`.
The f-string encodings are injective, so the constructor arguments carry
the same identity as the name strings. -/
inductive Var where
  | x : ℕ → ℕ → Var
  | tao : ℕ → Var
  | u : ℕ → Var
  | y : ℕ → Var
deriving DecidableEq, Repr

/-- Comparison sense of a linear constraint as passed to
`linear_constraints.add` in `EVRP_Solver.py`: `"E"` (equality) or `"L"`
(less-or-equal). -/
inductive Sense where
  | E : Sense
  | L : Sense
deriving DecidableEq, Repr

/-- One call to `linear_constraints.add` in `EVRP_Solver.py`: the
variable-name list and coefficient list of the linear expression, the
sense and the right-hand side. -/
structure Constraint where
  cvars : List Var
  coefs : List ℝ
  sense : Sense
  rhs : ℝ

/-- Value of the linear expression of a constraint under an assignment of
the decision variables: the pairwise products of coefficients with the
values of the named variables, summed. -/
noncomputable def linExprVal (c : Constraint) (asg : Var → ℝ) : ℝ :=
  ((c.cvars.zip c.coefs).map (fun p => p.2 * asg p.1)).sum

/-- Satisfaction of a constraint by an assignment. -/
noncomputable def satisfies (c : Constraint) (asg : Var → ℝ) : Prop :=
  match c.sense with
  | Sense.E => linExprVal c asg = c.rhs
  | Sense.L => linExprVal c asg ≤ c.rhs

/-- `EVPR_TW_Solver.__init__`: `self.V_sequence = Graph.Customer_Idx`. -/
def V_sequence (G : Graph_EVRP_TW) : List ℕ := G.Customer_Idx

/-- `EVPR_TW_Solver.__init__`: `self.F_Prime_sequence = Graph.RS_Idx`. -/
def F_Prime_sequence (G : Graph_EVRP_TW) : List ℕ := G.RS_Idx

/-- `EVPR_TW_Solver.__init__`: `self.Depot_start = [0]`. -/
def Depot_start : List ℕ := [0]

/-- `EVPR_TW_Solver.__init__`:
`self.V_Prime_N_plus_1_sequence = self.V_sequence + self.F_Prime_sequence + [self.D[-1]]`,
where `self.D = Graph.Depot_Idx` (`D[-1]` is its last entry; `Depot_Idx`
always has two entries, so the totalising default is never observed). -/
def V_Prime_N_plus_1_sequence (G : Graph_EVRP_TW) : List ℕ :=
  V_sequence G ++ F_Prime_sequence G ++ [G.Depot_Idx.getLastD 0]

/-- `EVPR_TW_Solver.__init__`:
`self.V_Prime_0_sequence = [self.D[0]] + self.V_sequence + self.F_Prime_sequence`. -/
def V_Prime_0_sequence (G : Graph_EVRP_TW) : List ℕ :=
  [G.Depot_Idx.getD 0 0] ++ V_sequence G ++ F_Prime_sequence G

/-- `EVPR_TW_Solver.__init__`:
`self.V_Prime_sequence = self.V_sequence + self.F_Prime_sequence`. -/
def V_Prime_sequence (G : Graph_EVRP_TW) : List ℕ :=
  V_sequence G ++ F_Prime_sequence G

/-- `_set_constraints`, customer coverage: for `i` in `V_sequence`, the
equality constraint with variables `x_{i}_{j}` for `j` in
`V_Prime_N_plus_1_sequence`, `j ≠ i`, all coefficients `1`
(`[1] * (len(V_Prime_N_plus_1_sequence) - 1)`), and right-hand side `1`. -/
def coverCon (G : Graph_EVRP_TW) (i : ℕ) : Constraint :=
  ⟨((V_Prime_N_plus_1_sequence G).filter (fun j => j ≠ i)).map (Var.x i),
    List.replicate ((V_Prime_N_plus_1_sequence G).length - 1) 1, Sense.E, 1⟩

/-- `_set_constraints`, recharging-station visitation: same linear
expression as `coverCon` but with sense `L`. -/
def stationCon (G : Graph_EVRP_TW) (i : ℕ) : Constraint :=
  ⟨((V_Prime_N_plus_1_sequence G).filter (fun j => j ≠ i)).map (Var.x i),
    List.replicate ((V_Prime_N_plus_1_sequence G).length - 1) 1, Sense.L, 1⟩

/-- `_set_constraints`, route consistency for node `j`:
`in_vars = x_{j}_{i}` for `i` in `V_Prime_N_plus_1_sequence`, `i ≠ j`
(coefficient `1`), `out_vars = x_{i}_{j}` for `i` in
`V_Prime_0_sequence`, `i ≠ j` (coefficient `-1`), equality with
right-hand side `0`. -/
def flowCon (G : Graph_EVRP_TW) (j : ℕ) : Constraint :=
  let in_vars := ((V_Prime_N_plus_1_sequence G).filter (fun i => i ≠ j)).map (fun i => Var.x j i)
  let out_vars := ((V_Prime_0_sequence G).filter (fun i => i ≠ j)).map (fun i => Var.x i j)
  ⟨in_vars ++ out_vars,
    List.replicate in_vars.length 1 ++ List.replicate out_vars.length (-1), Sense.E, 0⟩

/-- `_set_constraints`, travel-time propagation with customer or
start-depot origin: variables `[tao_i, tao_j, x_{i}_{j}]`, coefficients
`[1, -1, Travel_Time[i][j] + CustomerService[i] + l_0]`, sense `L`,
right-hand side `l_0`. -/
noncomputable def timeCustCon (G : Graph_EVRP_TW) (l_0 : ℝ) (i j : ℕ) : Constraint :=
  ⟨[Var.tao i, Var.tao j, Var.x i j],
    [1, -1, G.travel_time_matrix i j + ((G.CustomerServiceTime.getD i 0 : ℚ) : ℝ) + l_0],
    Sense.L, l_0⟩

/-- `_set_constraints`, travel-time propagation with recharging-station
origin: variables `[tao_i, tao_j, x_{i}_{j}, y_i]`, coefficients
`[1, -1, l_0 + g * Q, -g]`, sense `L`, right-hand side `l_0`. -/
noncomputable def timeRSCon (G : Graph_EVRP_TW) (l_0 : ℝ) (i j : ℕ) : Constraint :=
  ⟨[Var.tao i, Var.tao j, Var.x i j, Var.y i],
    [1, -1, l_0 + (G.g : ℝ) * (G.Q : ℝ), -(G.g : ℝ)], Sense.L, l_0⟩

/-- `_set_constraints`, load capacity: variables `[u_j, u_i, x_{i}_{j}]`,
coefficients `[1, -1, C + CustomerDemand[i]]`, sense `L`, right-hand side
`C`. -/
noncomputable def loadCon (G : Graph_EVRP_TW) (i j : ℕ) : Constraint :=
  ⟨[Var.u j, Var.u i, Var.x i j],
    [1, -1, (G.C : ℝ) + ((G.CustomerDemand.getD i 0 : ℚ) : ℝ)], Sense.L, (G.C : ℝ)⟩

/-- `_set_constraints`, battery propagation with customer origin:
variables `[y_j, y_i, x_{i}_{j}]`, coefficients
`[1, -1, h * distance_matrix[i][j] + Q]` (where `self.h = Graph.r`),
sense `L`, right-hand side `Q`. -/
noncomputable def battCustCon (G : Graph_EVRP_TW) (i j : ℕ) : Constraint :=
  ⟨[Var.y j, Var.y i, Var.x i j],
    [1, -1, (G.r : ℝ) * G.distance_matrix i j + (G.Q : ℝ)], Sense.L, (G.Q : ℝ)⟩

/-- `_set_constraints`, battery propagation with start-depot or
recharging-station origin: variables `[y_j, x_{i}_{j}]`, coefficients
`[1, h * distance_matrix[i][j]]`, sense `L`, right-hand side `Q`. -/
noncomputable def battRSCon (G : Graph_EVRP_TW) (i j : ℕ) : Constraint :=
  ⟨[Var.y j, Var.x i j], [1, (G.r : ℝ) * G.distance_matrix i j], Sense.L, (G.Q : ℝ)⟩

/-- The double loop pattern of `_set_constraints`:
`for i in outer: for j in inner: if i != j: add (con i j)`. -/
def pairConstraints (outer inner : List ℕ) (con : ℕ → ℕ → Constraint) : List Constraint :=
  outer.flatMap (fun i => ((inner.filter (fun j => j ≠ i)).map (con i)))

/-- `_set_constraints`, block 1: one customer-coverage constraint per
element of `V_sequence`. -/
def coverage_constraints (G : Graph_EVRP_TW) : List Constraint :=
  (V_sequence G).map (coverCon G)

/-- `_set_constraints`, block 2: one station-visitation constraint per
element of `F_Prime_sequence`. -/
def station_constraints (G : Graph_EVRP_TW) : List Constraint :=
  (F_Prime_sequence G).map (stationCon G)

/-- `_set_constraints`, block 3: one route-consistency constraint per
element of `V_Prime_sequence`. -/
def flow_constraints (G : Graph_EVRP_TW) : List Constraint :=
  (V_Prime_sequence G).map (flowCon G)

/-- `_set_constraints`, block 4: travel-time constraints over
`i ∈ Depot_start + V_sequence`, `j ∈ V_Prime_N_plus_1_sequence`, `i ≠ j`. -/
noncomputable def time_customer_constraints (G : Graph_EVRP_TW) (l_0 : ℝ) : List Constraint :=
  pairConstraints (Depot_start ++ V_sequence G) (V_Prime_N_plus_1_sequence G) (timeCustCon G l_0)

/-- `_set_constraints`, block 5: travel-time constraints over
`i ∈ F_Prime_sequence`, `j ∈ V_Prime_N_plus_1_sequence`, `i ≠ j`. -/
noncomputable def time_station_constraints (G : Graph_EVRP_TW) (l_0 : ℝ) : List Constraint :=
  pairConstraints (F_Prime_sequence G) (V_Prime_N_plus_1_sequence G) (timeRSCon G l_0)

/-- `_set_constraints`, block 6: load constraints over
`i ∈ V_Prime_0_sequence`, `j ∈ V_Prime_N_plus_1_sequence`, `i ≠ j`. -/
noncomputable def load_constraints (G : Graph_EVRP_TW) : List Constraint :=
  pairConstraints (V_Prime_0_sequence G) (V_Prime_N_plus_1_sequence G) (loadCon G)

/-- `_set_constraints`, block 7: battery constraints over
`i ∈ V_sequence`, `j ∈ V_Prime_N_plus_1_sequence`, `i ≠ j`. -/
noncomputable def battery_customer_constraints (G : Graph_EVRP_TW) : List Constraint :=
  pairConstraints (V_sequence G) (V_Prime_N_plus_1_sequence G) (battCustCon G)

/-- `_set_constraints`, block 8: battery constraints over
`i ∈ Depot_start + F_Prime_sequence`, `j ∈ V_Prime_N_plus_1_sequence`,
`i ≠ j`. -/
noncomputable def battery_station_constraints (G : Graph_EVRP_TW) : List Constraint :=
  pairConstraints (Depot_start ++ F_Prime_sequence G) (V_Prime_N_plus_1_sequence G) (battRSCon G)

/-- `EVPR_TW_Solver._set_constraints`: the eight constraint blocks in
source order. -/
noncomputable def set_constraints (G : Graph_EVRP_TW) (l_0 : ℝ) : List Constraint :=
  coverage_constraints G ++ station_constraints G ++ flow_constraints G ++
    time_customer_constraints G l_0 ++ time_station_constraints G l_0 ++
    load_constraints G ++ battery_customer_constraints G ++ battery_station_constraints G

mutual

/-- `utility.py`, the recursive inner function `find_route` of
`find_and_print_routes`.  An arc label `"x_i_j"` is the pair `(i, j)`.
State threading mirrors the Python mutation exactly: the returned pair is
(routes appended by this call, the state of the shared `current_route`
list when the call returns).  The `visited` set is restored by the Python
code after every recursive call (each `add` is paired with a `remove`),
so the continuation always receives the caller's `visited` unchanged.
Note the early `return` on reaching the end node does not pop
`current_route`. -/
def find_route (seq : List (ℕ × ℕ)) (e : ℕ) (visited : List (ℕ × ℕ))
    (current_route : List (ℕ × ℕ)) (current_node : ℕ × ℕ) :
    List (List (ℕ × ℕ)) × List (ℕ × ℕ) :=
  let cur := current_route ++ [current_node]
  if current_node.2 = e then ([cur], cur)
  else
    let p := find_route_loop seq e visited cur current_node.2 seq
    (p.1, p.2.dropLast)
termination_by ((seq.toFinset \ visited.toFinset).card, seq.length + 1)

/-- `utility.py`, the `for next_node in sequence` loop inside
`find_route`: `rem` is the part of `sequence` not yet iterated, `j` the
destination index of the current node. -/
def find_route_loop (seq : List (ℕ × ℕ)) (e : ℕ) (visited : List (ℕ × ℕ))
    (cur : List (ℕ × ℕ)) (j : ℕ) (rem : List (ℕ × ℕ)) :
    List (List (ℕ × ℕ)) × List (ℕ × ℕ) :=
  match rem with
  | [] => ([], cur)
  | next :: rest =>
    if h : next ∉ visited ∧ next.1 = j then
      let p1 := find_route seq e (next :: visited) cur next
      let p2 := find_route_loop seq e visited p1.2 j rest
      (p1.1 ++ p2.1, p2.2)
    else find_route_loop seq e visited cur j rest
termination_by (((seq.toFinset ∪ rem.toFinset) \ visited.toFinset).card, rem.length)
decreasing_by
· apply Prod.Lex.left
  apply Finset.card_lt_card
  constructor
  · intro a ha
    simp only [Finset.mem_sdiff, List.toFinset_cons, Finset.mem_insert,
      Finset.mem_union, List.mem_toFinset] at ha ⊢
    tauto
  · intro hsub
    have hne : next ∈ seq.toFinset \ (next :: visited).toFinset := by
      apply hsub
      simp [h.1]
    simp at hne
· have hle : ((seq.toFinset ∪ rest.toFinset) \ visited.toFinset).card ≤
      ((seq.toFinset ∪ (next :: rest).toFinset) \ visited.toFinset).card := by
    apply Finset.card_le_card
    apply Finset.sdiff_subset_sdiff _ le_rfl
    simp only [List.toFinset_cons]
    intro a ha
    simp only [Finset.mem_union, Finset.mem_insert] at ha ⊢
    tauto
  rcases lt_or_eq_of_le hle with hlt | heq
  · exact Prod.Lex.left _ _ hlt
  · rw [heq]
    exact Prod.Lex.right _ (Nat.lt_succ_self _)
· have hle : ((seq.toFinset ∪ rest.toFinset) \ visited.toFinset).card ≤
      ((seq.toFinset ∪ (next :: rest).toFinset) \ visited.toFinset).card := by
    apply Finset.card_le_card
    apply Finset.sdiff_subset_sdiff _ le_rfl
    simp only [List.toFinset_cons]
    intro a ha
    simp only [Finset.mem_union, Finset.mem_insert] at ha ⊢
    tauto
  rcases lt_or_eq_of_le hle with hlt | heq
  · exact Prod.Lex.left _ _ hlt
  · rw [heq]
    exact Prod.Lex.right _ (Nat.lt_succ_self _)

end

/-- `utility.py`, `find_and_print_routes`: depth-first search started at
every arc of `sequence` whose label begins with `x_0_` (origin index `0`);
routes accumulate across the outer loop.  The top-level `visited` check is
always true: `visited` is empty again when each outer iteration begins,
because every insertion inside the walk is paired with a removal and the
start arc itself is removed after its walk; the start arc is the only
member during its own walk, which the call below passes as `[s]`. -/
def find_and_print_routes (sequence : List (ℕ × ℕ)) (end_node_idx : ℕ) :
    List (List (ℕ × ℕ)) :=
  sequence.foldl
    (fun routes s =>
      if s.1 = 0 then routes ++ (find_route sequence end_node_idx [s] [] s).1
      else routes)
    []

/-- Contiguity of a sequence of arcs starting at node `s`: each arc
begins where the previous one ended. -/
def isChainFrom : ℕ → List (ℕ × ℕ) → Bool
  | _, [] => true
  | s, a :: rest => a.1 == s && isChainFrom a.2 rest

/-- The spec's Route property (for comparison with the output of
`find_and_print_routes`): a nonempty ordered sequence of arcs forming a
contiguous path from the start depot index `0` to the end depot index
`e`, with no repeated arcs. -/
def RouteSpec (e : ℕ) (r : List (ℕ × ℕ)) : Prop :=
  r ≠ [] ∧ isChainFrom 0 r = true ∧ (r.getLastD (0, 0)).2 = e ∧ r.Nodup

/-- A Python runtime error surfaced by the embedded `data_parser.py`
code: `ValueError` from the unrecognised-prefix branch, `IndexError`
from an out-of-range list subscript. -/
inductive PyError where
  | ValueError : PyError
  | IndexError : PyError
deriving DecidableEq, Repr

/-- Outcome of the two regular-expression matches of `parse_file`
(`data_parser.py`) on one input line, abstracting the raw text: `node`
carries the captured groups of the node regex (identifier, type
character, position, demand, window, service time), `param` the captured
key and value of the parameter regex, `blank` a line matching neither. -/
inductive ParsedLine where
  | node (StringId : String) (ty : NType) (x y demand ready due service : ℚ)
  | param (key : String) (value : ℚ)
  | blank
deriving DecidableEq, Repr

/-- The accumulator of the line loop of `parse_file`: the three node
lists and the parameter dictionary (as an insertion-ordered association
list). -/
structure ParseState where
  Depot_nodes : List Node
  Customer_nodes : List Node
  RS_nodes : List Node
  parameters : List (String × ℚ)
deriving DecidableEq, Repr

/-- Python `dict.update({k: v})` on an insertion-ordered association
list: overwrite in place if the key is present, append otherwise. -/
def dictUpdate (d : List (String × ℚ)) (k : String) (v : ℚ) : List (String × ℚ) :=
  if d.any (fun p => p.1 = k) then d.map (fun p => if p.1 = k then (k, v) else p)
  else d ++ [(k, v)]

/-- The line loop of `parse_file` (`data_parser.py`): node lines are
categorised by `StringId.startswith` with the one-character prefixes
`"D"` (depot), `"S"` (station), `"C"` (customer); anything else raises
`ValueError`; parameter lines update the parameter dictionary.  A
one-character `startswith` is exactly a test on the first character of
the identifier, which the node regex (`\w+`) guarantees to exist, so it
is embedded as a comparison of the head character. -/
def parse_loop (lines : List ParsedLine) (st : ParseState) : Except PyError ParseState :=
  match lines with
  | [] => Except.ok st
  | l :: rest =>
    match l with
    | ParsedLine.node sid ty px py dem rdy due srv =>
      let node_data : Node := ⟨sid, ty, (px, py), dem, (rdy, due), srv⟩
      if sid.data.headD ' ' = 'D' then
        parse_loop rest { st with Depot_nodes := st.Depot_nodes ++ [node_data] }
      else if sid.data.headD ' ' = 'S' then
        parse_loop rest { st with RS_nodes := st.RS_nodes ++ [node_data] }
      else if sid.data.headD ' ' = 'C' then
        parse_loop rest { st with Customer_nodes := st.Customer_nodes ++ [node_data] }
      else Except.error PyError.ValueError
    | ParsedLine.param k v =>
      parse_loop rest { st with parameters := dictUpdate st.parameters k v }
    | ParsedLine.blank => parse_loop rest st

/-- `data_parser.py`, `parse_file`: run the line loop from empty
accumulators, then perform the depot-coincidence cleanup
`if Customer_nodes[0].Position == Depot_nodes[0].Position: Customer_nodes.pop(0)`.
The subscripts `Customer_nodes[0]` (evaluated first) and
`Depot_nodes[0]` raise `IndexError` on an empty list. -/
def parse_file (lines : List ParsedLine) :
    Except PyError (List Node × List Node × List Node × List (String × ℚ)) :=
  match parse_loop lines ⟨[], [], [], []⟩ with
  | Except.error e => Except.error e
  | Except.ok st =>
    match st.Customer_nodes with
    | [] => Except.error PyError.IndexError
    | c0 :: crest =>
      match st.Depot_nodes with
      | [] => Except.error PyError.IndexError
      | d0 :: _ =>
        if c0.Position = d0.Position then
          Except.ok (st.Depot_nodes, crest, st.RS_nodes, st.parameters)
        else
          Except.ok (st.Depot_nodes, st.Customer_nodes, st.RS_nodes, st.parameters)

/-- Sample depot node (dataset row `D0 d 40.0 50.0 0.0 0.0 1236.0 0.0`). -/
def nodeD0 : Node := ⟨"D0", NType.d, (40, 50), 0, (0, 1236), 0⟩

/-- A second depot node, used to exercise multi-depot input. -/
def nodeD1 : Node := ⟨"D1", NType.d, (35, 40), 0, (0, 1236), 0⟩

/-- Sample customer node. -/
def nodeC20 : Node := ⟨"C20", NType.c, (30, 50), 10, (0, 1000), 90⟩

/-- Sample recharging-station node. -/
def nodeS0 : Node := ⟨"S0", NType.f, (20, 40), 0, (0, 1236), 0⟩

/-- Sample vehicle parameters (`Q 77.75, C 200, r 1.0, g 3.47, v 1.0`). -/
def sampleParams : VehicleParams := ⟨311/4, 200, 1, 347/100, 1⟩

/-- The all-zero variable assignment, used to instantiate semantic
statements at a concrete point. -/
def asg0 : Var → ℝ := fun _ => 0

lemma listMul_length (l : List α) (n : ℕ) : (listMul l n).length = n * l.length := by
  simp [listMul, List.length_flatten, List.map_replicate, List.sum_replicate, smul_eq_mul]

lemma zip_replicate_sum (asg : Var → ℝ) (c : ℝ) (l : List Var) :
    ((l.zip (List.replicate l.length c)).map (fun p => p.2 * asg p.1)).sum =
      c * (l.map asg).sum := by
  induction l with
  | nil => simp
  | cons a t ih => simp [List.replicate_succ, ih, mul_add]

lemma linExprVal_ones_negones (A B : List Var) (s : Sense) (r : ℝ) (asg : Var → ℝ) :
    linExprVal ⟨A ++ B, List.replicate A.length 1 ++ List.replicate B.length (-1), s, r⟩ asg =
      (A.map asg).sum - (B.map asg).sum := by
  unfold linExprVal
  simp only
  rw [List.zip_append (by simp), List.map_append, List.sum_append,
    zip_replicate_sum, zip_replicate_sum]
  ring

lemma filter_ne_length (l : List ℕ) (i : ℕ) (hnd : l.Nodup) (hm : i ∈ l) :
    (l.filter (fun j => j ≠ i)).length = l.length - 1 := by
  induction l with
  | nil => simp at hm
  | cons a t ih =>
    by_cases hia : i = a
    · subst hia
      have hat : i ∉ t := (List.nodup_cons.mp hnd).1
      simp [List.filter_cons]
      exact fun b hb hbi => hat (hbi ▸ hb)
    · have hmt : i ∈ t := by
        rcases List.mem_cons.mp hm with h1 | h2
        · exact absurd h1 hia
        · exact h2
      have ht := ih (List.nodup_cons.mp hnd).2 hmt
      have hlen : 1 ≤ t.length := List.length_pos.mpr (List.ne_nil_of_mem hmt)
      have hane : a ≠ i := fun hh => hia hh.symm
      rw [List.filter_cons, if_pos (show decide (a ≠ i) = true by simp [hane])]
      simp only [List.length_cons]
      rw [ht]
      omega

lemma mem_pairConstraints (outer inner : List ℕ) (con : ℕ → ℕ → Constraint)
    (c : Constraint) :
    c ∈ pairConstraints outer inner con ↔
      ∃ i j, i ∈ outer ∧ j ∈ inner ∧ j ≠ i ∧ c = con i j := by
  simp only [pairConstraints, List.mem_flatMap, List.mem_map, List.mem_filter,
    ne_eq, decide_not, Bool.not_eq_eq_eq_not, Bool.not_true, decide_eq_false_iff_not]
  constructor
  · rintro ⟨i, hi, j, ⟨hj, hne⟩, rfl⟩
    exact ⟨i, j, hi, hj, hne, rfl⟩
  · rintro ⟨i, j, hi, hj, hne, rfl⟩
    exact ⟨i, hi, j, ⟨hj, hne⟩, rfl⟩

lemma init_Nodes (Depot_nodes Customer_nodes RS_nodes : List Node)
    (ps : VehicleParams) (R : ℕ) :
    (Graph_EVRP_TW.init Depot_nodes Customer_nodes RS_nodes ps R).Nodes =
      Depot_nodes ++ Customer_nodes ++ listMul RS_nodes R ++ Depot_nodes := rfl

lemma init_Nodes_length_single (d : Node) (cs ss : List Node) (ps : VehicleParams) (R : ℕ) :
    (Graph_EVRP_TW.init [d] cs ss ps R).Nodes.length =
      2 + cs.length + R * ss.length := by
  simp only [Graph_EVRP_TW.init, listMul_length, List.length_append,
    List.length_cons, List.length_nil]
  omega

lemma init_Customer_Idx (Depot_nodes Customer_nodes RS_nodes : List Node)
    (ps : VehicleParams) (R : ℕ) :
    (Graph_EVRP_TW.init Depot_nodes Customer_nodes RS_nodes ps R).Customer_Idx =
      List.range' 1 Customer_nodes.length := by
  simp [Graph_EVRP_TW.init, pyRange]

lemma init_RS_Idx (Depot_nodes Customer_nodes RS_nodes : List Node)
    (ps : VehicleParams) (R : ℕ) :
    (Graph_EVRP_TW.init Depot_nodes Customer_nodes RS_nodes ps R).RS_Idx =
      pyRange (1 + Customer_nodes.length)
        ((Graph_EVRP_TW.init Depot_nodes Customer_nodes RS_nodes ps R).Nodes.length - 1) :=
  rfl

lemma init_RS_Idx_single (d : Node) (cs ss : List Node) (ps : VehicleParams) (R : ℕ) :
    (Graph_EVRP_TW.init [d] cs ss ps R).RS_Idx =
      List.range' (1 + cs.length) (R * ss.length) := by
  rw [init_RS_Idx, init_Nodes_length_single, pyRange]
  congr 1
  omega

lemma init_Depot_Idx (Depot_nodes Customer_nodes RS_nodes : List Node)
    (ps : VehicleParams) (R : ℕ) :
    (Graph_EVRP_TW.init Depot_nodes Customer_nodes RS_nodes ps R).Depot_Idx =
      [0, (Graph_EVRP_TW.init Depot_nodes Customer_nodes RS_nodes ps R).Nodes.length - 1] :=
  rfl

lemma init_Depot_Idx_single (d : Node) (cs ss : List Node) (ps : VehicleParams) (R : ℕ) :
    (Graph_EVRP_TW.init [d] cs ss ps R).Depot_Idx =
      [0, 1 + cs.length + R * ss.length] := by
  rw [init_Depot_Idx, init_Nodes_length_single]
  congr 2
  omega

lemma V_sequence_single (d : Node) (cs ss : List Node) (ps : VehicleParams) (R : ℕ) :
    V_sequence (Graph_EVRP_TW.init [d] cs ss ps R) = List.range' 1 cs.length :=
  init_Customer_Idx [d] cs ss ps R

lemma F_Prime_sequence_single (d : Node) (cs ss : List Node) (ps : VehicleParams) (R : ℕ) :
    F_Prime_sequence (Graph_EVRP_TW.init [d] cs ss ps R) =
      List.range' (1 + cs.length) (R * ss.length) :=
  init_RS_Idx_single d cs ss ps R

lemma V_Prime_sequence_single (d : Node) (cs ss : List Node) (ps : VehicleParams) (R : ℕ) :
    V_Prime_sequence (Graph_EVRP_TW.init [d] cs ss ps R) =
      List.range' 1 (cs.length + R * ss.length) := by
  rw [V_Prime_sequence, V_sequence_single, F_Prime_sequence_single]
  have := List.range'_append 1 cs.length (R * ss.length) 1
  simp only [one_mul] at this
  rw [this]
  congr 1
  omega

lemma V_Prime_N_plus_1_sequence_single (d : Node) (cs ss : List Node)
    (ps : VehicleParams) (R : ℕ) :
    V_Prime_N_plus_1_sequence (Graph_EVRP_TW.init [d] cs ss ps R) =
      List.range' 1 (cs.length + R * ss.length + 1) := by
  rw [V_Prime_N_plus_1_sequence]
  have hvf : V_sequence (Graph_EVRP_TW.init [d] cs ss ps R) ++
      F_Prime_sequence (Graph_EVRP_TW.init [d] cs ss ps R) =
      List.range' 1 (cs.length + R * ss.length) :=
    V_Prime_sequence_single d cs ss ps R
  rw [hvf, init_Depot_Idx_single]
  have hlast : ([0, 1 + cs.length + R * ss.length] : List ℕ).getLastD 0 =
      1 + cs.length + R * ss.length := rfl
  rw [hlast]
  have hconcat := List.range'_1_concat 1 (cs.length + R * ss.length)
  rw [hconcat]
  congr 2
  omega

lemma V_Prime_0_sequence_single (d : Node) (cs ss : List Node)
    (ps : VehicleParams) (R : ℕ) :
    V_Prime_0_sequence (Graph_EVRP_TW.init [d] cs ss ps R) =
      List.range' 0 (cs.length + R * ss.length + 1) := by
  rw [V_Prime_0_sequence]
  have hvf : V_sequence (Graph_EVRP_TW.init [d] cs ss ps R) ++
      F_Prime_sequence (Graph_EVRP_TW.init [d] cs ss ps R) =
      List.range' 1 (cs.length + R * ss.length) :=
    V_Prime_sequence_single d cs ss ps R
  rw [init_Depot_Idx_single, List.append_assoc, hvf]
  have hhead : ([0, 1 + cs.length + R * ss.length] : List ℕ).getD 0 0 = 0 := rfl
  rw [hhead]
  have hr := List.range'_append 0 1 (cs.length + R * ss.length) 1
  simp only [one_mul, mul_one] at hr
  rw [show List.range' 0 1 = [0] from rfl] at hr
  rw [show (0 : ℕ) + 1 = 1 from rfl] at hr
  rw [show ([0] ++ List.range' 1 (cs.length + R * ss.length) : List ℕ) =
    0 :: List.range' 1 (cs.length + R * ss.length) from rfl] at hr
  rw [show ([(0 : ℕ)] ++ List.range' 1 (cs.length + R * ss.length) : List ℕ) =
    0 :: List.range' 1 (cs.length + R * ss.length) from rfl]
  rw [hr]

/-- C8: for every list of input nodes, the distance matrix produced by
`generate_distance_matrix` is symmetric (entry `[i][j]` equals entry
`[j][i]` for all index pairs) and every diagonal entry `[i][i]` is zero. -/
theorem C8_distance_matrix_symmetric_zero_diagonal (nodes : List Node) (i j : ℕ) :
    generate_distance_matrix nodes i j = generate_distance_matrix nodes j i ∧
    generate_distance_matrix nodes i i = 0 := by
  constructor
  · simp [generate_distance_matrix, add_comm]
  · simp [generate_distance_matrix, upper_triangle, euclidean_distance]

/-- C7: for a single physical depot `d`, customers `cs`, stations `ss`
and replication factor `R`, the constructed node sequence is
`[d] + cs + (ss repeated R times) + [d]`, its length is
`2 + |cs| + |ss|·R`, the depot indices are `0` and `length - 1`, the
customer indices are the contiguous block `1 .. |cs|`, and the
station-replica indices are the contiguous block starting right after the
customers and ending at `length - 2`. -/
theorem C7_single_depot_layout (d : Node) (cs ss : List Node) (ps : VehicleParams) (R : ℕ) :
    (Graph_EVRP_TW.init [d] cs ss ps R).Nodes = [d] ++ cs ++ listMul ss R ++ [d] ∧
    (Graph_EVRP_TW.init [d] cs ss ps R).Nodes.length = 2 + cs.length + ss.length * R ∧
    (Graph_EVRP_TW.init [d] cs ss ps R).Depot_Idx =
      [0, (Graph_EVRP_TW.init [d] cs ss ps R).Nodes.length - 1] ∧
    (Graph_EVRP_TW.init [d] cs ss ps R).Customer_Idx = List.range' 1 cs.length ∧
    (Graph_EVRP_TW.init [d] cs ss ps R).RS_Idx =
      List.range' (1 + cs.length) (ss.length * R) := by
  refine ⟨init_Nodes [d] cs ss ps R, ?_, init_Depot_Idx [d] cs ss ps R,
    init_Customer_Idx [d] cs ss ps R, ?_⟩
  · rw [init_Nodes_length_single]
    ring
  · rw [init_RS_Idx_single, Nat.mul_comm R ss.length]

/-- C2, counterexample: a two-depot input is not rejected — graph
construction completes (mislabelling the second depot as a customer and
the customer as a station replica) and constraint generation proceeds,
producing a nonempty formulation. -/
theorem C2_multi_depot_counterexample :
    (Graph_EVRP_TW.init [nodeD0, nodeD1] [nodeC20] [] sampleParams 1).Customer_Idx = [1] ∧
    ((Graph_EVRP_TW.init [nodeD0, nodeD1] [nodeC20] [] sampleParams 1).Nodes.getD 1
      dummyNode).type = NType.d ∧
    (set_constraints (Graph_EVRP_TW.init [nodeD0, nodeD1] [nodeC20] [] sampleParams 1)
      1000).length = 45 :=
  ⟨rfl, rfl, rfl⟩

/-- C2, amended: graph/formulation construction performs no depot-count
validation; for any number of physical depots it totally constructs the
node sequence `depots + customers + stations·R + depots` (of length
`2·|depots| + |customers| + |stations|·R`) and constraint generation
proceeds on the result. -/
theorem C2_construction_never_rejects (Depot_nodes Customer_nodes RS_nodes : List Node)
    (ps : VehicleParams) (R : ℕ) :
    (Graph_EVRP_TW.init Depot_nodes Customer_nodes RS_nodes ps R).Nodes =
      Depot_nodes ++ Customer_nodes ++ listMul RS_nodes R ++ Depot_nodes ∧
    (Graph_EVRP_TW.init Depot_nodes Customer_nodes RS_nodes ps R).Nodes.length =
      2 * Depot_nodes.length + Customer_nodes.length + RS_nodes.length * R := by
  refine ⟨init_Nodes _ _ _ _ _, ?_⟩
  rw [init_Nodes]
  simp only [List.length_append, listMul_length]
  ring

lemma satisfies_timeCustCon (G : Graph_EVRP_TW) (l_0 : ℝ) (i j : ℕ) (asg : Var → ℝ) :
    satisfies (timeCustCon G l_0 i j) asg ↔
      asg (Var.tao i) - asg (Var.tao j) +
        (G.travel_time_matrix i j + ((G.CustomerServiceTime.getD i 0 : ℚ) : ℝ) + l_0) *
          asg (Var.x i j) ≤ l_0 := by
  have hval : linExprVal (timeCustCon G l_0 i j) asg =
      asg (Var.tao i) - asg (Var.tao j) +
        (G.travel_time_matrix i j + ((G.CustomerServiceTime.getD i 0 : ℚ) : ℝ) + l_0) *
          asg (Var.x i j) := by
    simp [linExprVal, timeCustCon]
    ring
  have hs : satisfies (timeCustCon G l_0 i j) asg ↔
      linExprVal (timeCustCon G l_0 i j) asg ≤ l_0 := Iff.rfl
  rw [hs, hval]

lemma satisfies_timeRSCon (G : Graph_EVRP_TW) (l_0 : ℝ) (i j : ℕ) (asg : Var → ℝ) :
    satisfies (timeRSCon G l_0 i j) asg ↔
      asg (Var.tao i) - asg (Var.tao j) +
        (l_0 + (G.g : ℝ) * (G.Q : ℝ)) * asg (Var.x i j) -
          (G.g : ℝ) * asg (Var.y i) ≤ l_0 := by
  have hval : linExprVal (timeRSCon G l_0 i j) asg =
      asg (Var.tao i) - asg (Var.tao j) +
        (l_0 + (G.g : ℝ) * (G.Q : ℝ)) * asg (Var.x i j) -
          (G.g : ℝ) * asg (Var.y i) := by
    simp [linExprVal, timeRSCon]
    ring
  have hs : satisfies (timeRSCon G l_0 i j) asg ↔
      linExprVal (timeRSCon G l_0 i j) asg ≤ l_0 := Iff.rfl
  rw [hs, hval]

lemma satisfies_battCustCon (G : Graph_EVRP_TW) (i j : ℕ) (asg : Var → ℝ) :
    satisfies (battCustCon G i j) asg ↔
      asg (Var.y j) - asg (Var.y i) +
        ((G.r : ℝ) * G.distance_matrix i j + (G.Q : ℝ)) * asg (Var.x i j) ≤ (G.Q : ℝ) := by
  have hval : linExprVal (battCustCon G i j) asg =
      asg (Var.y j) - asg (Var.y i) +
        ((G.r : ℝ) * G.distance_matrix i j + (G.Q : ℝ)) * asg (Var.x i j) := by
    simp [linExprVal, battCustCon]
    ring
  have hs : satisfies (battCustCon G i j) asg ↔
      linExprVal (battCustCon G i j) asg ≤ (G.Q : ℝ) := Iff.rfl
  rw [hs, hval]

lemma satisfies_battRSCon (G : Graph_EVRP_TW) (i j : ℕ) (asg : Var → ℝ) :
    satisfies (battRSCon G i j) asg ↔
      asg (Var.y j) + (G.r : ℝ) * G.distance_matrix i j * asg (Var.x i j) ≤ (G.Q : ℝ) := by
  have hval : linExprVal (battRSCon G i j) asg =
      asg (Var.y j) + (G.r : ℝ) * G.distance_matrix i j * asg (Var.x i j) := by
    simp [linExprVal, battRSCon]
  have hs : satisfies (battRSCon G i j) asg ↔
      linExprVal (battRSCon G i j) asg ≤ (G.Q : ℝ) := Iff.rfl
  rw [hs, hval]

/-- C4: for every graph, the time-propagation block with customer or
start-depot origin consists exactly of the constraints
`τ_i − τ_j + (travel_time(i,j) + service(i) + L₀)·x_ij ≤ L₀` over ordered
pairs `(i, j)`, `i ≠ j`, with `i` the start depot or a customer and `j` a
valid successor; and the block with station origin consists exactly of
`τ_i − τ_j + (L₀ + g·Q)·x_ij − g·y_i ≤ L₀` over ordered pairs with `i` a
station replica and `j` a valid successor. -/
theorem C4_time_propagation (G : Graph_EVRP_TW) (l_0 : ℝ) :
    (∀ c, c ∈ time_customer_constraints G l_0 ↔
      ∃ i j, i ∈ Depot_start ++ V_sequence G ∧ j ∈ V_Prime_N_plus_1_sequence G ∧
        j ≠ i ∧ c = timeCustCon G l_0 i j) ∧
    (∀ i j asg, satisfies (timeCustCon G l_0 i j) asg ↔
      asg (Var.tao i) - asg (Var.tao j) +
        (G.travel_time_matrix i j + ((G.CustomerServiceTime.getD i 0 : ℚ) : ℝ) + l_0) *
          asg (Var.x i j) ≤ l_0) ∧
    (∀ c, c ∈ time_station_constraints G l_0 ↔
      ∃ i j, i ∈ F_Prime_sequence G ∧ j ∈ V_Prime_N_plus_1_sequence G ∧
        j ≠ i ∧ c = timeRSCon G l_0 i j) ∧
    (∀ i j asg, satisfies (timeRSCon G l_0 i j) asg ↔
      asg (Var.tao i) - asg (Var.tao j) +
        (l_0 + (G.g : ℝ) * (G.Q : ℝ)) * asg (Var.x i j) -
          (G.g : ℝ) * asg (Var.y i) ≤ l_0) := by
  refine ⟨fun c => ?_, fun i j asg => satisfies_timeCustCon G l_0 i j asg,
    fun c => ?_, fun i j asg => satisfies_timeRSCon G l_0 i j asg⟩
  · exact mem_pairConstraints _ _ _ c
  · exact mem_pairConstraints _ _ _ c

/-- C5: for every graph, the battery-propagation block with customer
origin consists exactly of the constraints
`y_j − y_i + (h·distance(i,j) + Q)·x_ij ≤ Q` over ordered pairs `(i, j)`,
`i ≠ j`, with `i` a customer and `j` a valid successor; and the block
with start-depot or station origin consists exactly of
`y_j + h·distance(i,j)·x_ij ≤ Q` over ordered pairs with `i` the start
depot or a station replica and `j` a valid successor. -/
theorem C5_battery_propagation (G : Graph_EVRP_TW) :
    (∀ c, c ∈ battery_customer_constraints G ↔
      ∃ i j, i ∈ V_sequence G ∧ j ∈ V_Prime_N_plus_1_sequence G ∧
        j ≠ i ∧ c = battCustCon G i j) ∧
    (∀ i j asg, satisfies (battCustCon G i j) asg ↔
      asg (Var.y j) - asg (Var.y i) +
        ((G.r : ℝ) * G.distance_matrix i j + (G.Q : ℝ)) * asg (Var.x i j) ≤ (G.Q : ℝ)) ∧
    (∀ c, c ∈ battery_station_constraints G ↔
      ∃ i j, i ∈ Depot_start ++ F_Prime_sequence G ∧ j ∈ V_Prime_N_plus_1_sequence G ∧
        j ≠ i ∧ c = battRSCon G i j) ∧
    (∀ i j asg, satisfies (battRSCon G i j) asg ↔
      asg (Var.y j) + (G.r : ℝ) * G.distance_matrix i j * asg (Var.x i j) ≤ (G.Q : ℝ)) := by
  refine ⟨fun c => ?_, fun i j asg => satisfies_battCustCon G i j asg,
    fun c => ?_, fun i j asg => satisfies_battRSCon G i j asg⟩
  · exact mem_pairConstraints _ _ _ c
  · exact mem_pairConstraints _ _ _ c

lemma linExprVal_replicate (A : List Var) (n : ℕ) (c : ℝ) (s : Sense) (r : ℝ)
    (asg : Var → ℝ) (h : A.length = n) :
    linExprVal ⟨A, List.replicate n c, s, r⟩ asg = c * (A.map asg).sum := by
  subst h
  exact zip_replicate_sum asg c A

lemma satisfies_flowCon (G : Graph_EVRP_TW) (j : ℕ) (asg : Var → ℝ) :
    satisfies (flowCon G j) asg ↔
      (((V_Prime_0_sequence G).filter (fun i => i ≠ j)).map
        (fun i => asg (Var.x i j))).sum =
      (((V_Prime_N_plus_1_sequence G).filter (fun i => i ≠ j)).map
        (fun i => asg (Var.x j i))).sum := by
  have hs : satisfies (flowCon G j) asg ↔ linExprVal (flowCon G j) asg = (0 : ℝ) := Iff.rfl
  have hval : linExprVal (flowCon G j) asg =
      ((((V_Prime_N_plus_1_sequence G).filter (fun i => i ≠ j)).map
        (fun i => Var.x j i)).map asg).sum -
      ((((V_Prime_0_sequence G).filter (fun i => i ≠ j)).map
        (fun i => Var.x i j)).map asg).sum :=
    linExprVal_ones_negones _ _ Sense.E 0 asg
  rw [hs, hval, sub_eq_zero, List.map_map, List.map_map]
  simp only [Function.comp_def]
  exact eq_comm

/-- C3: for every constructed single-depot graph, the route-consistency
block contains exactly one equality constraint per non-depot node `j`
(the customer and station-replica indices, which are pairwise distinct),
and that constraint states that the sum of the incoming arc variables
`x_ij` over valid predecessors `i` equals the sum of the outgoing arc
variables `x_ji` over valid successors `i`. -/
theorem C3_flow_conservation (d : Node) (cs ss : List Node) (ps : VehicleParams) (R : ℕ) :
    flow_constraints (Graph_EVRP_TW.init [d] cs ss ps R) =
      (V_Prime_sequence (Graph_EVRP_TW.init [d] cs ss ps R)).map
        (flowCon (Graph_EVRP_TW.init [d] cs ss ps R)) ∧
    (V_Prime_sequence (Graph_EVRP_TW.init [d] cs ss ps R)).Nodup ∧
    (∀ j asg, satisfies (flowCon (Graph_EVRP_TW.init [d] cs ss ps R) j) asg ↔
      (((V_Prime_0_sequence (Graph_EVRP_TW.init [d] cs ss ps R)).filter
        (fun i => i ≠ j)).map (fun i => asg (Var.x i j))).sum =
      (((V_Prime_N_plus_1_sequence (Graph_EVRP_TW.init [d] cs ss ps R)).filter
        (fun i => i ≠ j)).map (fun i => asg (Var.x j i))).sum) := by
  refine ⟨rfl, ?_, fun j asg => satisfies_flowCon _ j asg⟩
  rw [V_Prime_sequence_single]
  exact List.nodup_range' _ _ 1 Nat.one_pos

lemma satisfies_coverCon (G : Graph_EVRP_TW) (i : ℕ) (asg : Var → ℝ)
    (hlen : ((V_Prime_N_plus_1_sequence G).filter (fun j => j ≠ i)).length =
      (V_Prime_N_plus_1_sequence G).length - 1) :
    satisfies (coverCon G i) asg ↔
      (((V_Prime_N_plus_1_sequence G).filter (fun j => j ≠ i)).map
        (fun j => asg (Var.x i j))).sum = 1 := by
  have hs : satisfies (coverCon G i) asg ↔ linExprVal (coverCon G i) asg = (1 : ℝ) := Iff.rfl
  have hval : linExprVal (coverCon G i) asg =
      1 * ((((V_Prime_N_plus_1_sequence G).filter (fun j => j ≠ i)).map
        (Var.x i)).map asg).sum :=
    linExprVal_replicate _ _ 1 Sense.E 1 asg (by rw [List.length_map, hlen])
  rw [hs, hval, one_mul, List.map_map]
  simp only [Function.comp_def]

lemma satisfies_stationCon (G : Graph_EVRP_TW) (i : ℕ) (asg : Var → ℝ)
    (hlen : ((V_Prime_N_plus_1_sequence G).filter (fun j => j ≠ i)).length =
      (V_Prime_N_plus_1_sequence G).length - 1) :
    satisfies (stationCon G i) asg ↔
      (((V_Prime_N_plus_1_sequence G).filter (fun j => j ≠ i)).map
        (fun j => asg (Var.x i j))).sum ≤ 1 := by
  have hs : satisfies (stationCon G i) asg ↔ linExprVal (stationCon G i) asg ≤ (1 : ℝ) :=
    Iff.rfl
  have hval : linExprVal (stationCon G i) asg =
      1 * ((((V_Prime_N_plus_1_sequence G).filter (fun j => j ≠ i)).map
        (Var.x i)).map asg).sum :=
    linExprVal_replicate _ _ 1 Sense.L 1 asg (by rw [List.length_map, hlen])
  rw [hs, hval, one_mul, List.map_map]
  simp only [Function.comp_def]

/-- C6: for every constructed single-depot graph, the coverage block
contains exactly one equality constraint per customer index `i`, forcing
the sum of `x_ij` over all valid successors `j ≠ i` to equal `1`, and the
station block contains exactly one inequality constraint per
station-replica index `i`, forcing the corresponding sum to be at most
`1`. -/
theorem C6_coverage_and_station_bounds (d : Node) (cs ss : List Node)
    (ps : VehicleParams) (R : ℕ) :
    coverage_constraints (Graph_EVRP_TW.init [d] cs ss ps R) =
      (V_sequence (Graph_EVRP_TW.init [d] cs ss ps R)).map
        (coverCon (Graph_EVRP_TW.init [d] cs ss ps R)) ∧
    station_constraints (Graph_EVRP_TW.init [d] cs ss ps R) =
      (F_Prime_sequence (Graph_EVRP_TW.init [d] cs ss ps R)).map
        (stationCon (Graph_EVRP_TW.init [d] cs ss ps R)) ∧
    (V_sequence (Graph_EVRP_TW.init [d] cs ss ps R)).Nodup ∧
    (F_Prime_sequence (Graph_EVRP_TW.init [d] cs ss ps R)).Nodup ∧
    (∀ i asg, i ∈ V_sequence (Graph_EVRP_TW.init [d] cs ss ps R) →
      (satisfies (coverCon (Graph_EVRP_TW.init [d] cs ss ps R) i) asg ↔
        (((V_Prime_N_plus_1_sequence (Graph_EVRP_TW.init [d] cs ss ps R)).filter
          (fun j => j ≠ i)).map
            (fun j => asg (Var.x i j))).sum = 1)) ∧
    (∀ i asg, i ∈ F_Prime_sequence (Graph_EVRP_TW.init [d] cs ss ps R) →
      (satisfies (stationCon (Graph_EVRP_TW.init [d] cs ss ps R) i) asg ↔
        (((V_Prime_N_plus_1_sequence (Graph_EVRP_TW.init [d] cs ss ps R)).filter
          (fun j => j ≠ i)).map
            (fun j => asg (Var.x i j))).sum ≤ 1)) := by
  have hVN1 := V_Prime_N_plus_1_sequence_single d cs ss ps R
  have hnodupVN1 : (V_Prime_N_plus_1_sequence (Graph_EVRP_TW.init [d] cs ss ps R)).Nodup := by
    rw [hVN1]
    exact List.nodup_range' _ _ 1 Nat.one_pos
  refine ⟨rfl, rfl, ?_, ?_, ?_, ?_⟩
  · rw [V_sequence_single]
    exact List.nodup_range' _ _ 1 Nat.one_pos
  · rw [F_Prime_sequence_single]
    exact List.nodup_range' _ _ 1 Nat.one_pos
  · intro i asg hi
    have hiVN1 : i ∈ V_Prime_N_plus_1_sequence (Graph_EVRP_TW.init [d] cs ss ps R) := by
      rw [V_sequence_single, List.mem_range'_1] at hi
      rw [hVN1, List.mem_range'_1]
      omega
    exact satisfies_coverCon _ i asg (filter_ne_length _ i hnodupVN1 hiVN1)
  · intro i asg hi
    have hiVN1 : i ∈ V_Prime_N_plus_1_sequence (Graph_EVRP_TW.init [d] cs ss ps R) := by
      rw [F_Prime_sequence_single, List.mem_range'_1] at hi
      rw [hVN1, List.mem_range'_1]
      omega
    exact satisfies_stationCon _ i asg (filter_ne_length _ i hnodupVN1 hiVN1)

/-- Witness for C6 at a concrete instance: one depot, one customer
(graph index 1), one station replica (graph index 2). -/
theorem C6_coverage_and_station_bounds_witness :
    (1 ∈ V_sequence (Graph_EVRP_TW.init [nodeD0] [nodeC20] [nodeS0] sampleParams 1)) ∧
    (2 ∈ F_Prime_sequence (Graph_EVRP_TW.init [nodeD0] [nodeC20] [nodeS0] sampleParams 1)) ∧
    (satisfies (coverCon (Graph_EVRP_TW.init [nodeD0] [nodeC20] [nodeS0] sampleParams 1) 1)
        asg0 ↔
      (((V_Prime_N_plus_1_sequence
          (Graph_EVRP_TW.init [nodeD0] [nodeC20] [nodeS0] sampleParams 1)).filter
        (fun j => j ≠ 1)).map (fun j => asg0 (Var.x 1 j))).sum = 1) ∧
    (satisfies (stationCon (Graph_EVRP_TW.init [nodeD0] [nodeC20] [nodeS0] sampleParams 1) 2)
        asg0 ↔
      (((V_Prime_N_plus_1_sequence
          (Graph_EVRP_TW.init [nodeD0] [nodeC20] [nodeS0] sampleParams 1)).filter
        (fun j => j ≠ 2)).map (fun j => asg0 (Var.x 2 j))).sum ≤ 1) :=
  ⟨by decide, by decide,
    (C6_coverage_and_station_bounds nodeD0 [nodeC20] [nodeS0] sampleParams 1).2.2.2.2.1
      1 asg0 (by decide),
    (C6_coverage_and_station_bounds nodeD0 [nodeC20] [nodeS0] sampleParams 1).2.2.2.2.2
      2 asg0 (by decide)⟩

/-- C1 fails on the code: on the arc-selection set
`{x_0_1, x_1_5, x_1_2, x_2_5}` (end depot 5, iterated in that order)
the reconstructor reports the route
`x_0_1 -> x_1_5 -> x_1_2 -> x_2_5`, which is not a contiguous path
(`x_1_5` ends at node 5 but `x_1_2` starts at node 1): the early return
taken when a route reaches the end depot skips the
`current_route.pop()` backtrack, so the finished route's tail leaks into
the subsequently reported route. -/
theorem C1_reconstructor_emits_non_route :
    find_and_print_routes [(0, 1), (1, 5), (1, 2), (2, 5)] 5 =
      [[(0, 1), (1, 5)], [(0, 1), (1, 5), (1, 2), (2, 5)]] ∧
    ¬ RouteSpec 5 [(0, 1), (1, 5), (1, 2), (2, 5)] := by
  constructor
  · simp [find_and_print_routes, find_route.eq_def, find_route_loop.eq_def]
  · intro hR
    have hchain := hR.2.1
    simp [isChainFrom] at hchain

/-- C9 fails on the code: the same arc-selection set
`{x_0_1, x_1_2, x_2_5, x_1_5}` presented in two different iteration
orders yields two different sets of routes (a consequence of the same
missing backtrack as in C1). -/
theorem C9_reconstruction_order_sensitive :
    ([((0 : ℕ), (1 : ℕ)), (1, 2), (2, 5), (1, 5)] : List (ℕ × ℕ)).Perm
      [(0, 1), (1, 5), (1, 2), (2, 5)] ∧
    (find_and_print_routes [(0, 1), (1, 2), (2, 5), (1, 5)] 5).toFinset ≠
      (find_and_print_routes [(0, 1), (1, 5), (1, 2), (2, 5)] 5).toFinset := by
  constructor
  · decide
  · have h1 : find_and_print_routes [(0, 1), (1, 2), (2, 5), (1, 5)] 5 =
        [[(0, 1), (1, 2), (2, 5)], [(0, 1), (1, 2), (1, 5)]] := by
      simp [find_and_print_routes, find_route.eq_def, find_route_loop.eq_def]
    have h2 : find_and_print_routes [(0, 1), (1, 5), (1, 2), (2, 5)] 5 =
        [[(0, 1), (1, 5)], [(0, 1), (1, 5), (1, 2), (2, 5)]] := by
      simp [find_and_print_routes, find_route.eq_def, find_route_loop.eq_def]
    rw [h1, h2]
    decide

/-- C10: whenever the line loop of `parse_file` completes with an empty
customer list, the depot-coincidence cleanup reads `Customer_nodes[0]`
unconditionally and raises `IndexError`, so the parsed lists are never
returned. -/
theorem C10_empty_customers_IndexError (lines : List ParsedLine) (st : ParseState)
    (hok : parse_loop lines ⟨[], [], [], []⟩ = Except.ok st)
    (hempty : st.Customer_nodes = []) :
    parse_file lines = Except.error PyError.IndexError := by
  rcases st with ⟨ds, cs, rs, ps⟩
  simp only at hempty
  subst hempty
  unfold parse_file
  rw [hok]

/-- Witness for C10: a file consisting of a single depot line parses to
an empty customer list, and `parse_file` raises `IndexError` on it. -/
theorem C10_empty_customers_IndexError_witness :
    parse_loop [ParsedLine.node "D0" NType.d 40 50 0 0 1236 0] ⟨[], [], [], []⟩ =
      Except.ok ⟨[⟨"D0", NType.d, (40, 50), 0, (0, 1236), 0⟩], [], [], []⟩ ∧
    (⟨[⟨"D0", NType.d, (40, 50), 0, (0, 1236), 0⟩], [], [], []⟩ :
      ParseState).Customer_nodes = [] ∧
    parse_file [ParsedLine.node "D0" NType.d 40 50 0 0 1236 0] =
      Except.error PyError.IndexError :=
  ⟨rfl, rfl,
    C10_empty_customers_IndexError [ParsedLine.node "D0" NType.d 40 50 0 0 1236 0]
      ⟨[⟨"D0", NType.d, (40, 50), 0, (0, 1236), 0⟩], [], [], []⟩ rfl rfl⟩
